import Mathlib

/-!
Verification development for the `Dr-Ones/drone` repository.

The crate root is `src/lib.rs` (it declares only `mod utils;`, so
`src/drone.rs` is an uncompiled historical variant).  We give a shallow
embedding of the data model from the `wg_2024` contract and of the drone
core from `src/lib.rs` and `src/utils.rs`:

* machine integers (`u8` node ids, `u64` session/flood/fragment ids) are
  modelled as `Nat`; the code performs no arithmetic on them other than
  copying and equality, so no overflow can occur;
* the packet-drop rate `pdr : f32` is modelled as `ℚ`; the only operations
  the code performs on it are assignment and `(pdr * 100.0) as i32`, and
  every value the theorems instantiate it with (`0.0`, `0.5`, `1.0`, `2.0`)
  is exactly representable in `f32` with an exact product by `100.0`;
* a crossbeam `Sender<Packet>` channel is identified by the node id that
  owns its receiving end; performing `sender.send(p)` becomes emitting an
  `Output.send` event, and writing to the controller-event channel
  `sim_contr_send` would become an `Output.controllerEvent` event (the
  drone code never writes to it);
* `println!` logging becomes `Output.logLine` / `Output.logNoChannel`
  events carrying the structured data of the message;
* `StdRng` becomes a stream (`List Nat`) of pre-drawn values: each call to
  `gen_range(0..=100)` or `gen()` consumes the head of the stream;
* Rust panics (out-of-bounds slice indexing, `panic!`) are modelled by
  returning `none`; every embedded function that can panic returns an
  `Option`.
-/

namespace DrOnes

/-- `wg_2024::network::NodeId` (a `u8`). -/
abbrev NodeId := Nat

/-- `wg_2024::network::SourceRoutingHeader`. -/
structure SourceRoutingHeader where
  hop_index : Nat
  hops : List NodeId
deriving Repr, DecidableEq

/-- `wg_2024::packet::NodeType`. -/
inductive NodeType where
  | Client
  | Drone
  | Server
deriving Repr, DecidableEq

/-- `wg_2024::packet::Fragment` (the 128-byte `data` array is a list of
byte values; the drone never inspects it). -/
structure Fragment where
  fragment_index : Nat
  total_n_fragments : Nat
  length : Nat
  data : List Nat
deriving Repr, DecidableEq

/-- `wg_2024::packet::Ack`. -/
structure Ack where
  fragment_index : Nat
deriving Repr, DecidableEq

/-- `wg_2024::packet::NackType`. -/
inductive NackType where
  | ErrorInRouting (id : NodeId)
  | DestinationIsDrone
  | Dropped
  | UnexpectedRecipient (id : NodeId)
deriving Repr, DecidableEq

/-- `wg_2024::packet::Nack`. -/
structure Nack where
  fragment_index : Nat
  nack_type : NackType
deriving Repr, DecidableEq

/-- `wg_2024::packet::FloodRequest`. -/
structure FloodRequest where
  flood_id : Nat
  initiator_id : NodeId
  path_trace : List (NodeId × NodeType)
deriving Repr, DecidableEq

/-- `wg_2024::packet::FloodResponse`. -/
structure FloodResponse where
  flood_id : Nat
  path_trace : List (NodeId × NodeType)
deriving Repr, DecidableEq

/-- `wg_2024::packet::PacketType`. -/
inductive PacketType where
  | MsgFragment (fragment : Fragment)
  | Ack (ack : Ack)
  | Nack (nack : Nack)
  | FloodRequest (flood_request : FloodRequest)
  | FloodResponse (flood_response : FloodResponse)
deriving Repr, DecidableEq

/-- `wg_2024::packet::Packet`. -/
structure Packet where
  pack_type : PacketType
  routing_header : SourceRoutingHeader
  session_id : Nat
deriving Repr, DecidableEq

/-- `wg_2024::controller::DroneEvent` (the supervisory-event contract;
the drone code imports it for its `sim_contr_send` channel but never
constructs a value of it). -/
inductive DroneEvent where
  | PacketSent (packet : Packet)
  | PacketDropped (packet : Packet)
  | ControllerShortcut (packet : Packet)
deriving Repr, DecidableEq

/-- `wg_2024::controller::DroneCommand`; the `Sender<Packet>` carried by
`AddSender` is identified by the node id owning its receiving end. -/
inductive DroneCommand where
  | AddSender (node_id : NodeId)
  | SetPacketDropRate (new_pdr : ℚ)
  | Crash
  | RemoveSender (node_id : NodeId)
deriving Repr, DecidableEq

/-- Observable effect of one step of the drone: a packet sent on the
channel towards a neighbour, an event written to the controller-event
channel, or a console log line (`logNoChannel` is the specific
`No channel found for next hop` line of `forward_packet`). -/
inductive Output where
  | send (dest : NodeId) (packet : Packet)
  | controllerEvent (event : DroneEvent)
  | logNoChannel (next_hop : NodeId)
  | logLine
deriving Repr, DecidableEq

/-- The `Dr_One` drone state (`src/lib.rs`).  The inbound packet channel
`packet_recv` is the list of packets queued on it; `packet_send` is the
key set of the `HashMap<NodeId, Sender<Packet>>` link table (in some
iteration order); `seen_flood_ids` is the `IndexSet<u64>` in insertion
order; `random_generator` is the stream of values the `StdRng` will
produce. -/
structure Dr_One where
  id : NodeId
  packet_recv : List Packet
  packet_send : List NodeId
  pdr : ℚ
  seen_flood_ids : List Nat
  random_generator : List Nat
  should_exit : Bool
deriving Repr, DecidableEq

/-- Truncation toward zero of a rational, as Rust's `as i32` cast does on
the (exactly represented) values reaching it in this code. -/
def rat_trunc (q : ℚ) : Int :=
  if 0 ≤ q then ((q.num.toNat / q.den : Nat) : Int)
  else -(((-q.num).toNat / q.den : Nat) : Int)

/-- `(self.pdr * 100.0) as i32` from `should_drop_packet`
(`src/lib.rs:200`). -/
def pdr_scaled (pdr : ℚ) : Int := rat_trunc (pdr * 100)

/-- Draw the next value from the random generator
(`self.get_random_generator()`). -/
def rng_next (d : Dr_One) : Nat × Dr_One :=
  (d.random_generator.headD 0, { d with random_generator := d.random_generator.tail })

/-- `NetworkUtils::forward_packet` (`src/utils.rs:34`): looks up the
channel of `hops[hop_index]`; sends on it when present, otherwise logs
and returns.  `none` is the panic on an out-of-bounds index. -/
def forward_packet (d : Dr_One) (packet : Packet) : Option (List Output) := do
  let next_hop_id ← packet.routing_header.hops[packet.routing_header.hop_index]?
  if d.packet_send.contains next_hop_id then
    pure [Output.send next_hop_id packet]
  else
    pure [Output.logNoChannel next_hop_id]

/-- `NetworkUtils::build_flood_response` (`src/utils.rs:58`): reverses the
node ids of the updated path trace into a fresh routing header with hop
index 1, wraps the flood id and updated path trace into a
`FloodResponse`, and draws a random session id.  `none` is the `panic!`
on a non-flood-request packet. -/
def build_flood_response (d : Dr_One) (packet : Packet)
    (updated_path_trace : List (NodeId × NodeType)) : Option (Dr_One × Packet) :=
  match packet.pack_type with
  | PacketType.FloodRequest flood_request =>
      let route_back := (updated_path_trace.map Prod.fst).reverse
      let new_routing_header : SourceRoutingHeader :=
        { hop_index := 1, hops := route_back }
      let (sid, d') := rng_next d
      some (d',
        { pack_type := PacketType.FloodResponse
            { flood_id := flood_request.flood_id, path_trace := updated_path_trace },
          routing_header := new_routing_header,
          session_id := sid })
  | _ => none

/-- `Dr_One::reverse_packet_routing_direction` (`src/lib.rs:284`): the new
hop list is `hops[..hop_index]` reversed, with hop index reset to 1.
`none` is the slice panic when `hop_index > hops.len()`. -/
def reverse_packet_routing_direction (packet : Packet) : Option Packet :=
  if packet.routing_header.hop_index ≤ packet.routing_header.hops.length then
    some { packet with
      routing_header :=
        { hop_index := 1,
          hops := (packet.routing_header.hops.take packet.routing_header.hop_index).reverse } }
  else none

/-- The fragment-index extraction at the head of `build_nack`
(`src/lib.rs:263`): the fragment index of a fragment payload, 0 otherwise. -/
def nack_fragment_index : PacketType → Nat
  | PacketType.MsgFragment fragment => fragment.fragment_index
  | _ => 0

/-- `Dr_One::build_nack` (`src/lib.rs:262`): keeps the fragment index of a
fragment payload (0 otherwise), wraps the nack, and reverses the routing
direction. -/
def build_nack (d : Dr_One) (packet : Packet) (nack_type : NackType) : Option Packet :=
  let fragment_index := nack_fragment_index packet.pack_type
  let response : Packet :=
    { pack_type := PacketType.Nack { fragment_index := fragment_index, nack_type := nack_type },
      routing_header := packet.routing_header,
      session_id := packet.session_id }
  reverse_packet_routing_direction response

/-- `Dr_One::should_respond_to_flood` (`src/lib.rs:137`): respond when the
flood id was already seen or there is exactly one neighbour. -/
def should_respond_to_flood (d : Dr_One) (flood_request : FloodRequest) : Bool :=
  d.seen_flood_ids.contains flood_request.flood_id || d.packet_send.length == 1

/-- `Dr_One::broadcast_packet` (`src/lib.rs:242`): send a copy to every
neighbour whose id differs from `exclude_id`. -/
def broadcast_packet (d : Dr_One) (packet : Packet) (exclude_id : NodeId) : List Output :=
  (d.packet_send.filter (fun nid => nid ≠ exclude_id)).map
    (fun nid => Output.send nid packet)

/-- `IndexSet::insert`: append the id when it is not already present. -/
def seen_insert (ids : List Nat) (x : Nat) : List Nat :=
  if ids.contains x then ids else ids ++ [x]

/-- The sender-id extraction at the head of `handle_flood_request`
(`src/lib.rs:112`): the node id of the last path-trace entry, or the
default id 0 when the trace is empty. -/
def flood_sender_id (flood_request : FloodRequest) : NodeId :=
  ((flood_request.path_trace.getLast?).map Prod.fst).getD 0

/-- The `path_trace.push((self.id, NodeType::Drone))` step of
`handle_flood_request` (`src/lib.rs:118`). -/
def flood_with_self (d : Dr_One) (flood_request : FloodRequest) : FloodRequest :=
  { flood_request with
      path_trace := flood_request.path_trace ++ [(d.id, NodeType.Drone)] }

/-- `Dr_One::handle_flood_request` (`src/lib.rs:110`). -/
def handle_flood_request (d : Dr_One) (packet : Packet) : Option (Dr_One × List Output) :=
  match packet.pack_type with
  | PacketType.FloodRequest flood_request₀ =>
      let sender_id := flood_sender_id flood_request₀
      let flood_request := flood_with_self d flood_request₀
      if should_respond_to_flood d flood_request then do
        let (d', response) ← build_flood_response d packet flood_request.path_trace
        let outs ← forward_packet d' response
        pure (d', outs)
      else
        let d' := { d with seen_flood_ids := seen_insert d.seen_flood_ids flood_request.flood_id }
        let updated_packet : Packet :=
          { pack_type := PacketType.FloodRequest flood_request,
            routing_header := packet.routing_header,
            session_id := packet.session_id }
        some (d', broadcast_packet d' updated_packet sender_id)
  | _ => some (d, [])

/-- The `packet.routing_header.hop_index += 1` step
(`src/lib.rs:149` and `src/lib.rs:179`). -/
def advance_packet (packet : Packet) : Packet :=
  { packet with
      routing_header :=
        { packet.routing_header with hop_index := packet.routing_header.hop_index + 1 } }

/-- `Dr_One::verify_routing` (`src/lib.rs:175`): when this drone is not
`hops[hop_index]`, send back an `UnexpectedRecipient` nack built from the
packet with the hop index advanced, and report `false`. -/
def verify_routing (d : Dr_One) (packet : Packet) : Option (Bool × List Output) := do
  let hop ← packet.routing_header.hops[packet.routing_header.hop_index]?
  if d.id ≠ hop then do
    let nack ← build_nack d (advance_packet packet) (NackType.UnexpectedRecipient d.id)
    let outs ← forward_packet d nack
    pure (false, outs)
  else
    pure (true, [])

/-- `Dr_One::should_drop_packet` (`src/lib.rs:199`): draw from
`gen_range(0..=100)` and drop when the draw is below the scaled pdr. -/
def should_drop_packet (d : Dr_One) : Bool × Dr_One :=
  let (r, d') := rng_next d
  (decide ((r : Int) < pdr_scaled d.pdr), d')

/-- `Dr_One::handle_message_fragment` (`src/lib.rs:188`): drop (sending a
`Dropped` nack back) or forward, according to `should_drop_packet`. -/
def handle_message_fragment (d : Dr_One) (packet : Packet) : Option (Dr_One × List Output) :=
  let (dropped, d') := should_drop_packet d
  if dropped then do
    let nack ← build_nack d' packet NackType.Dropped
    let outs ← forward_packet d' nack
    pure (d', outs)
  else do
    let outs ← forward_packet d' packet
    pure (d', outs)

/-- `Dr_One::handle_routed_packet` (`src/lib.rs:143`). -/
def handle_routed_packet (d : Dr_One) (packet₀ : Packet) : Option (Dr_One × List Output) := do
  let (ok, outs) ← verify_routing d packet₀
  if !ok then
    pure (d, outs)
  else
    let packet := advance_packet packet₀
    if packet.routing_header.hop_index = packet.routing_header.hops.length then do
      let nack ← build_nack d packet NackType.DestinationIsDrone
      let outs ← forward_packet d nack
      pure (d, outs)
    else do
      let next_hop_id ← packet.routing_header.hops[packet.routing_header.hop_index]?
      if !d.packet_send.contains next_hop_id then do
        let nack ← build_nack d packet (NackType.ErrorInRouting next_hop_id)
        let outs ← forward_packet d nack
        pure (d, outs)
      else
        match packet.pack_type with
        | PacketType.MsgFragment _ => handle_message_fragment d packet
        | _ => do
            let outs ← forward_packet d packet
            pure (d, outs)

/-- `Dr_One::handle_packet` (`src/lib.rs:92`). -/
def handle_packet (d : Dr_One) (packet : Packet) : Option (Dr_One × List Output) :=
  match packet.pack_type with
  | PacketType.FloodRequest _ => handle_flood_request d packet
  | _ => handle_routed_packet d packet

/-- `Dr_One::add_channel` (`src/lib.rs:206`): `HashMap::insert` leaves the
key set unchanged when the key is present. -/
def add_channel (d : Dr_One) (nid : NodeId) : Dr_One :=
  if d.packet_send.contains nid then d
  else { d with packet_send := d.packet_send ++ [nid] }

/-- `Dr_One::remove_channel` (`src/lib.rs:210`): log and keep the state
when the id is not a neighbour, otherwise remove it. -/
def remove_channel (d : Dr_One) (nid : NodeId) : Dr_One × List Output :=
  if !d.packet_send.contains nid then
    (d, [Output.logLine])
  else
    ({ d with packet_send := d.packet_send.erase nid }, [])

/-- `Dr_One::set_pdr` (`src/lib.rs:224`): unconditional assignment. -/
def set_pdr (d : Dr_One) (new_pdr : ℚ) : Dr_One :=
  { d with pdr := new_pdr }

/-- The `while let Ok(packet) = self.packet_recv.try_recv()` drain loop of
`Dr_One::crash` (`src/lib.rs:233`), run on the snapshot of the queue. -/
def drain_packets (d : Dr_One) : List Packet → Option (Dr_One × List Output)
  | [] => some (d, [])
  | packet :: rest => do
      let (d₁, outs₁) ← handle_packet d packet
      let (d₂, outs₂) ← drain_packets d₁ rest
      pure (d₂, outs₁ ++ outs₂)

/-- `Dr_One::crash` (`src/lib.rs:228`): log, drain every queued packet
through the ordinary `handle_packet` dispatch, then set the exit flag. -/
def crash (d : Dr_One) : Option (Dr_One × List Output) := do
  let (d', outs) ← drain_packets { d with packet_recv := [] } d.packet_recv
  pure ({ d' with should_exit := true },
        [Output.logLine, Output.logLine] ++ outs ++ [Output.logLine])

/-- `Dr_One::handle_command` (`src/lib.rs:100`). -/
def handle_command (d : Dr_One) (command : DroneCommand) : Option (Dr_One × List Output) :=
  match command with
  | DroneCommand.AddSender nid => some (add_channel d nid, [])
  | DroneCommand.SetPacketDropRate new_pdr => some (set_pdr d new_pdr, [])
  | DroneCommand.Crash => crash d
  | DroneCommand.RemoveSender nid => some (remove_channel d nid)

/-- Specification-side predicate for the crash drain: starting from state
`d`, every packet of the list is dispatched in order by the ordinary
`handle_packet`, ending in state `d'` with the concatenation of the
outputs produced for each packet. -/
def ProcessedSeq : Dr_One → List Packet → Dr_One → List Output → Prop
  | d, [], d', outs => d' = d ∧ outs = []
  | d, packet :: rest, d', outs =>
      ∃ d₁ outs₁ outs₂, handle_packet d packet = some (d₁, outs₁) ∧
        ProcessedSeq d₁ rest d' outs₂ ∧ outs = outs₁ ++ outs₂

/-- A concrete drone used to instantiate witnesses and counterexamples:
id 7, neighbours 5 and 9, drop rate 0. -/
def sample_drone : Dr_One :=
  { id := 7, packet_recv := [], packet_send := [5, 9], pdr := 0,
    seen_flood_ids := [], random_generator := [], should_exit := false }

/-- Whatever `forward_packet` returns, the output list never contains a
controller event: the drone code never writes to `sim_contr_send`. -/
theorem forward_packet_no_event (d : Dr_One) (p : Packet) (outs : List Output)
    (h : forward_packet d p = some outs) : ∀ e, Output.controllerEvent e ∉ outs := by
  unfold forward_packet at h
  cases hg : p.routing_header.hops[p.routing_header.hop_index]? with
  | none => rw [hg] at h; simp at h
  | some nid =>
      rw [hg] at h
      by_cases hc : nid ∈ d.packet_send <;>
        simp [hc, pure] at h <;> subst h <;> intro e <;> simp

/-- Every packet sent by `forward_packet d p` is `p` itself, addressed to
`hops[hop_index]`. -/
theorem forward_packet_send_eq (d : Dr_One) (p : Packet) (outs : List Output)
    (h : forward_packet d p = some outs) :
    ∀ dest q, Output.send dest q ∈ outs → q = p := by
  unfold forward_packet at h
  cases hg : p.routing_header.hops[p.routing_header.hop_index]? with
  | none => rw [hg] at h; simp at h
  | some nid =>
      rw [hg] at h
      by_cases hc : nid ∈ d.packet_send
      · simp [hc, pure] at h
        subst h
        intro dest q hq
        simp at hq
        exact hq.2
      · simp [hc, pure] at h
        subst h
        intro dest q hq
        simp at hq

/-- Closed form of `forward_packet` when the next-hop index is in
bounds: a send when the neighbour channel exists, the log line
otherwise. -/
theorem forward_packet_total (d : Dr_One) (p : Packet) (x : NodeId)
    (hx : p.routing_header.hops[p.routing_header.hop_index]? = some x) :
    forward_packet d p =
      some (if x ∈ d.packet_send then [Output.send x p]
            else [Output.logNoChannel x]) := by
  unfold forward_packet
  rw [hx]
  by_cases hc : x ∈ d.packet_send <;> simp [hc, pure]

/-- `verify_routing` succeeds with no output when this drone is the hop
named by the (pre-advance) hop index. -/
theorem verify_routing_ok (d : Dr_One) (p : Packet)
    (hrec : p.routing_header.hops[p.routing_header.hop_index]? = some d.id) :
    verify_routing d p = some (true, []) := by
  unfold verify_routing
  rw [hrec]
  simp [pure]

theorem pdr_scaled_zero : pdr_scaled 0 = 0 := by
  simp [pdr_scaled, rat_trunc]

theorem pdr_scaled_one : pdr_scaled 1 = 100 := by
  norm_num [pdr_scaled, rat_trunc]

/-- C1: Reverse-path correctness.  A NACK built by `build_nack` from a
packet whose traversed prefix `hops[..hop_index]` is `ns ++ [d.id]` (the
hop index having been advanced past this drone) carries the routing
header with hop list `d.id :: ns.reverse` and hop index 1, and a flood
response built by `build_flood_response` from an updated path trace whose
node-id sequence is `ms ++ [d.id]` carries the routing header with hop
list `d.id :: ms.reverse` and hop index 1. -/
theorem reverse_path_correctness
    (d : Dr_One) (p q : Packet) (fr : FloodRequest) (nt : NackType)
    (ns ms : List NodeId) (pt : List (NodeId × NodeType))
    (hk : p.routing_header.hop_index ≤ p.routing_header.hops.length)
    (hpre : p.routing_header.hops.take p.routing_header.hop_index = ns ++ [d.id])
    (hq : q.pack_type = PacketType.FloodRequest fr)
    (hpt : pt.map Prod.fst = ms ++ [d.id]) :
    (∃ nack, build_nack d p nt = some nack ∧
       nack.routing_header = { hop_index := 1, hops := d.id :: ns.reverse }) ∧
    (∃ d' resp, build_flood_response d q pt = some (d', resp) ∧
       resp.routing_header = { hop_index := 1, hops := d.id :: ms.reverse }) := by
  constructor
  · unfold build_nack reverse_packet_routing_direction
    simp [hk, hpre]
  · unfold build_flood_response
    rw [hq]
    refine ⟨_, _, rfl, ?_⟩
    simp [hpt]

/-- Concrete routed packet for the C1 witness: traversed prefix
`[5, 7]` with 7 this drone. -/
def c1_packet : Packet :=
  { pack_type := PacketType.Ack { fragment_index := 0 },
    routing_header := { hop_index := 2, hops := [5, 7, 9] },
    session_id := 3 }

/-- Concrete flood request packet for the C1 witness. -/
def c1_flood_packet : Packet :=
  { pack_type := PacketType.FloodRequest
      { flood_id := 42, initiator_id := 5, path_trace := [(5, NodeType.Client)] },
    routing_header := { hop_index := 0, hops := [] },
    session_id := 4 }

/-- Witness for C1 at a concrete drone, packet and path trace. -/
theorem reverse_path_correctness_witness :
    (∃ nack, build_nack sample_drone c1_packet NackType.Dropped = some nack ∧
       nack.routing_header = { hop_index := 1, hops := 7 :: [5].reverse }) ∧
    (∃ d' resp, build_flood_response sample_drone c1_flood_packet
        [(5, NodeType.Client), (7, NodeType.Drone)] = some (d', resp) ∧
       resp.routing_header = { hop_index := 1, hops := 7 :: [5].reverse }) :=
  reverse_path_correctness sample_drone c1_packet c1_flood_packet
    { flood_id := 42, initiator_id := 5, path_trace := [(5, NodeType.Client)] }
    NackType.Dropped [5] [5] [(5, NodeType.Client), (7, NodeType.Drone)]
    (by decide) (by decide) rfl (by decide)

/-- C6 counterexample: the stored drop rate of `sample_drone` is 0, the
commanded value 2 lies outside `[0, 1]`, yet `set_pdr` stores it — the
previous value is not retained, refuting the claimed validation. -/
theorem set_pdr_validation_cex :
    ¬ ((2 : ℚ) ≤ 1) ∧ (set_pdr sample_drone 2).pdr = 2 ∧
      (set_pdr sample_drone 2).pdr ≠ sample_drone.pdr := by
  refine ⟨by norm_num, rfl, ?_⟩
  norm_num [set_pdr, sample_drone]

/-- C6 amended: the `SetPacketDropRate(v)` command stores `v`
unconditionally, for every `v`; no range validation is performed. -/
theorem set_pdr_unconditional (d : Dr_One) (v : ℚ) :
    handle_command d (DroneCommand.SetPacketDropRate v) = some (set_pdr d v, []) ∧
    (set_pdr d v).pdr = v :=
  ⟨rfl, rfl⟩

/-- C7: with drop rate 0.0, `should_drop_packet` decides false on every
possible draw of `gen_range(0..=100)`, so no fragment is ever dropped;
but with drop rate 1.0 the draw 100 — a possible outcome of the
inclusive range — still decides false (`100 < 100` fails), so the second
half of the claim fails on the code: the intended "every fragment is
dropped" is broken by the inclusive upper bound of the range. -/
theorem drop_rate_boundary :
    (∀ r : Nat, r ≤ 100 →
        (should_drop_packet
          { sample_drone with pdr := 0, random_generator := [r] }).1 = false) ∧
    (should_drop_packet
        { sample_drone with pdr := 1, random_generator := [100] }).1 = false := by
  constructor
  · intro r _
    simp [should_drop_packet, rng_next, pdr_scaled_zero]
  · simp [should_drop_packet, rng_next, pdr_scaled_one]

/-- Witness for C7 at the concrete draw 42. -/
theorem drop_rate_boundary_witness :
    (should_drop_packet
        { sample_drone with pdr := 0, random_generator := [42] }).1 = false :=
  drop_rate_boundary.1 42 (by norm_num)

/-- C10: when the post-advance next hop `hops[hop_index]` is absent from
the link table, `forward_packet` returns normally (no panic) having
produced only the `No channel found` log line: nothing is sent and no
controller event is emitted. -/
theorem forward_packet_missing_next_hop
    (d : Dr_One) (p : Packet) (next_hop_id : NodeId)
    (hget : p.routing_header.hops[p.routing_header.hop_index]? = some next_hop_id)
    (habs : next_hop_id ∉ d.packet_send) :
    forward_packet d p = some [Output.logNoChannel next_hop_id] ∧
    (∀ dest q, Output.send dest q ∉ [Output.logNoChannel next_hop_id]) ∧
    (∀ e, Output.controllerEvent e ∉ [Output.logNoChannel next_hop_id]) := by
  refine ⟨?_, by intro dest q h; simp at h, by intro e h; simp at h⟩
  unfold forward_packet
  rw [hget]
  simp [habs, pure]

/-- Concrete NACK packet for the C10 witness: its reverse-path neighbour 3
is not a neighbour of `sample_drone`. -/
def c10_packet : Packet :=
  { pack_type := PacketType.Nack { fragment_index := 0, nack_type := NackType.Dropped },
    routing_header := { hop_index := 1, hops := [7, 3] },
    session_id := 9 }

/-- Witness for C10 at a concrete drone and packet. -/
theorem forward_packet_missing_next_hop_witness :
    forward_packet sample_drone c10_packet = some [Output.logNoChannel 3] ∧
    (∀ dest q, Output.send dest q ∉ [Output.logNoChannel 3]) ∧
    (∀ e, Output.controllerEvent e ∉ [Output.logNoChannel 3]) :=
  forward_packet_missing_next_hop sample_drone c10_packet 3 rfl (by decide)

/-- Concrete Ack packet whose advanced hop index equals the hop-list
length, for the C3 counterexample. -/
def c3_packet : Packet :=
  { pack_type := PacketType.Ack { fragment_index := 0 },
    routing_header := { hop_index := 1, hops := [5, 7] },
    session_id := 3 }

/-- The NACK the code actually produces for `c3_packet`. -/
def c3_nack : Packet :=
  { pack_type := PacketType.Nack
      { fragment_index := 0, nack_type := NackType.DestinationIsDrone },
    routing_header := { hop_index := 1, hops := [7, 5] },
    session_id := 3 }

/-- C3 counterexample: on an Ack reaching `sample_drone` as terminal hop,
the code answers with a `DestinationIsDrone` NACK, emits no controller
event (in particular no `ControllerShortcut`) and does not forward the
Ack as-is — refuting the claimed shortcut behaviour for non-fragments. -/
theorem shortcut_event_cex :
    handle_routed_packet sample_drone c3_packet =
      some (sample_drone, [Output.send 5 c3_nack]) ∧
    (∀ e, Output.controllerEvent e ∉ [Output.send 5 c3_nack]) ∧
    (∀ dest, Output.send dest (advance_packet c3_packet) ∉ [Output.send 5 c3_nack]) := by
  refine ⟨by rfl, by intro e h; simp at h, ?_⟩
  intro dest h
  simp [c3_nack, advance_packet, c3_packet] at h

/-- C3 amended: for every payload kind — fragment or not — a routed
packet whose advanced hop index equals the hop-list length is answered
with a `DestinationIsDrone` NACK sent along the reversed traversed
prefix; no controller event (in particular no `ControllerShortcut`) is
emitted, and the packet is not forwarded as-is. -/
theorem destination_is_drone_all_kinds
    (d : Dr_One) (p : Packet)
    (hrec : p.routing_header.hops[p.routing_header.hop_index]? = some d.id)
    (h1 : 1 ≤ p.routing_header.hop_index)
    (hterm : p.routing_header.hop_index + 1 = p.routing_header.hops.length) :
    ∃ nack outs,
      build_nack d (advance_packet p) NackType.DestinationIsDrone = some nack ∧
      nack.pack_type = PacketType.Nack
        { fragment_index := nack_fragment_index p.pack_type,
          nack_type := NackType.DestinationIsDrone } ∧
      nack.routing_header =
        { hop_index := 1,
          hops := (p.routing_header.hops.take (p.routing_header.hop_index + 1)).reverse } ∧
      forward_packet d nack = some outs ∧
      handle_routed_packet d p = some (d, outs) ∧
      (∀ e, Output.controllerEvent e ∉ outs) := by
  have hb : build_nack d (advance_packet p) NackType.DestinationIsDrone =
      some { pack_type := PacketType.Nack
               { fragment_index := nack_fragment_index p.pack_type,
                 nack_type := NackType.DestinationIsDrone },
             routing_header :=
               { hop_index := 1,
                 hops := (p.routing_header.hops.take
                   (p.routing_header.hop_index + 1)).reverse },
             session_id := p.session_id } := by
    unfold build_nack reverse_packet_routing_direction
    simp [advance_packet, hterm.le]
  have hlt : 1 <
      ((p.routing_header.hops.take (p.routing_header.hop_index + 1)).reverse).length := by
    simp
    omega
  obtain ⟨prev, hprev⟩ :
      ∃ x, ((p.routing_header.hops.take
        (p.routing_header.hop_index + 1)).reverse)[1]? = some x :=
    ⟨_, List.getElem?_eq_getElem hlt⟩
  have hf := forward_packet_total d
    { pack_type := PacketType.Nack
        { fragment_index := nack_fragment_index p.pack_type,
          nack_type := NackType.DestinationIsDrone },
      routing_header :=
        { hop_index := 1,
          hops := (p.routing_header.hops.take
            (p.routing_header.hop_index + 1)).reverse },
      session_id := p.session_id } prev hprev
  refine ⟨_, _, hb, rfl, rfl, hf, ?_, forward_packet_no_event _ _ _ hf⟩
  unfold handle_routed_packet
  rw [verify_routing_ok d p hrec]
  simp only [Option.bind_eq_bind, Option.some_bind, Bool.not_true, Bool.false_eq_true,
    if_false]
  rw [if_pos (show (advance_packet p).routing_header.hop_index =
      (advance_packet p).routing_header.hops.length from by simp [advance_packet, hterm])]
  rw [hb]
  simp only [Option.some_bind]
  rw [hf]
  simp [pure]

/-- Witness for C3 (amended) at `sample_drone` and the concrete Ack
packet `c3_packet`. -/
theorem destination_is_drone_all_kinds_witness :
    ∃ nack outs,
      build_nack sample_drone (advance_packet c3_packet) NackType.DestinationIsDrone =
        some nack ∧
      nack.pack_type = PacketType.Nack
        { fragment_index := nack_fragment_index c3_packet.pack_type,
          nack_type := NackType.DestinationIsDrone } ∧
      nack.routing_header =
        { hop_index := 1,
          hops := (c3_packet.routing_header.hops.take
            (c3_packet.routing_header.hop_index + 1)).reverse } ∧
      forward_packet sample_drone nack = some outs ∧
      handle_routed_packet sample_drone c3_packet = some (sample_drone, outs) ∧
      (∀ e, Output.controllerEvent e ∉ outs) :=
  destination_is_drone_all_kinds sample_drone c3_packet rfl (by decide) (by decide)

/-- Concrete Ack packet whose post-advance next hop 3 is not a neighbour
of `sample_drone`, for the C4 counterexample. -/
def c4_packet : Packet :=
  { pack_type := PacketType.Ack { fragment_index := 0 },
    routing_header := { hop_index := 1, hops := [5, 7, 3, 2] },
    session_id := 8 }

/-- The NACK the code actually produces for `c4_packet`. -/
def c4_nack : Packet :=
  { pack_type := PacketType.Nack
      { fragment_index := 0, nack_type := NackType.ErrorInRouting 3 },
    routing_header := { hop_index := 1, hops := [7, 5] },
    session_id := 8 }

/-- C4 counterexample: an Ack whose next hop 3 is unreachable is not
dropped silently — the code builds an `ErrorInRouting(3)` NACK and sends
it back, refuting the claimed silent drop for non-fragment kinds. -/
theorem silent_drop_cex :
    handle_routed_packet sample_drone c4_packet =
      some (sample_drone, [Output.send 5 c4_nack]) ∧
    [Output.send 5 c4_nack] ≠ ([] : List Output) := by
  exact ⟨by rfl, by simp⟩

/-- C4 amended: for every payload kind — fragment or not — a routed
packet whose post-advance next hop is absent from the link table is
answered with an `ErrorInRouting(missing id)` NACK built along the
reversed traversed prefix and handed to `forward_packet`; non-fragment
packets are not dropped silently, and nothing but that NACK is ever
sent. -/
theorem error_in_routing_all_kinds
    (d : Dr_One) (p : Packet) (next_hop_id : NodeId)
    (hrec : p.routing_header.hops[p.routing_header.hop_index]? = some d.id)
    (h1 : 1 ≤ p.routing_header.hop_index)
    (hnext : p.routing_header.hops[p.routing_header.hop_index + 1]? = some next_hop_id)
    (habs : next_hop_id ∉ d.packet_send) :
    ∃ nack outs,
      build_nack d (advance_packet p) (NackType.ErrorInRouting next_hop_id) = some nack ∧
      nack.pack_type = PacketType.Nack
        { fragment_index := nack_fragment_index p.pack_type,
          nack_type := NackType.ErrorInRouting next_hop_id } ∧
      nack.routing_header =
        { hop_index := 1,
          hops := (p.routing_header.hops.take (p.routing_header.hop_index + 1)).reverse } ∧
      forward_packet d nack = some outs ∧
      handle_routed_packet d p = some (d, outs) ∧
      (∀ dest q, Output.send dest q ∈ outs → q = nack) := by
  have hlen : p.routing_header.hop_index + 1 < p.routing_header.hops.length := by
    have := List.getElem?_eq_some_iff.mp hnext
    exact this.choose
  have hb : build_nack d (advance_packet p) (NackType.ErrorInRouting next_hop_id) =
      some { pack_type := PacketType.Nack
               { fragment_index := nack_fragment_index p.pack_type,
                 nack_type := NackType.ErrorInRouting next_hop_id },
             routing_header :=
               { hop_index := 1,
                 hops := (p.routing_header.hops.take
                   (p.routing_header.hop_index + 1)).reverse },
             session_id := p.session_id } := by
    unfold build_nack reverse_packet_routing_direction
    simp [advance_packet, hlen.le]
  have hlt : 1 <
      ((p.routing_header.hops.take (p.routing_header.hop_index + 1)).reverse).length := by
    simp
    omega
  obtain ⟨prev, hprev⟩ :
      ∃ x, ((p.routing_header.hops.take
        (p.routing_header.hop_index + 1)).reverse)[1]? = some x :=
    ⟨_, List.getElem?_eq_getElem hlt⟩
  have hf := forward_packet_total d
    { pack_type := PacketType.Nack
        { fragment_index := nack_fragment_index p.pack_type,
          nack_type := NackType.ErrorInRouting next_hop_id },
      routing_header :=
        { hop_index := 1,
          hops := (p.routing_header.hops.take
            (p.routing_header.hop_index + 1)).reverse },
      session_id := p.session_id } prev hprev
  refine ⟨_, _, hb, rfl, rfl, hf, ?_, forward_packet_send_eq _ _ _ hf⟩
  unfold handle_routed_packet
  rw [verify_routing_ok d p hrec]
  simp only [Option.bind_eq_bind, Option.some_bind, Bool.not_true, Bool.false_eq_true,
    if_false]
  rw [if_neg (show ¬ (advance_packet p).routing_header.hop_index =
      (advance_packet p).routing_header.hops.length from by
        simp [advance_packet]
        omega)]
  rw [show (advance_packet p).routing_header.hops[(advance_packet p).routing_header.hop_index]? =
      some next_hop_id from hnext]
  simp only [Option.some_bind]
  rw [if_pos (show (!d.packet_send.contains next_hop_id) = true from by
    simp [habs])]
  rw [hb]
  simp only [Option.some_bind]
  rw [hf]
  simp [pure]

/-- Witness for C4 (amended) at `sample_drone` and the concrete Ack
packet `c4_packet`. -/
theorem error_in_routing_all_kinds_witness :
    ∃ nack outs,
      build_nack sample_drone (advance_packet c4_packet) (NackType.ErrorInRouting 3) =
        some nack ∧
      nack.pack_type = PacketType.Nack
        { fragment_index := nack_fragment_index c4_packet.pack_type,
          nack_type := NackType.ErrorInRouting 3 } ∧
      nack.routing_header =
        { hop_index := 1,
          hops := (c4_packet.routing_header.hops.take
            (c4_packet.routing_header.hop_index + 1)).reverse } ∧
      forward_packet sample_drone nack = some outs ∧
      handle_routed_packet sample_drone c4_packet = some (sample_drone, outs) ∧
      (∀ dest q, Output.send dest q ∈ outs → q = nack) :=
  error_in_routing_all_kinds sample_drone c4_packet 3 rfl (by decide) rfl (by decide)

/-- Drone for the C5 counterexample: drop rate 1 and a pending draw 0,
so the next fragment is surely dropped. -/
def c5_drone : Dr_One :=
  { sample_drone with pdr := 1, random_generator := [0] }

/-- Concrete data fragment for the C5 counterexample. -/
def c5_packet : Packet :=
  { pack_type := PacketType.MsgFragment
      { fragment_index := 1, total_n_fragments := 1, length := 128, data := [] },
    routing_header := { hop_index := 1, hops := [5, 7, 9] },
    session_id := 5 }

/-- The `Dropped` NACK the code actually produces for `c5_packet`. -/
def c5_nack : Packet :=
  { pack_type := PacketType.Nack
      { fragment_index := 1, nack_type := NackType.Dropped },
    routing_header := { hop_index := 1, hops := [7, 5] },
    session_id := 5 }

/-- C5 counterexample: on a dropped fragment the code sends only the
`Dropped` NACK; no `PacketDropped` (or any other) controller event is
emitted, refuting the claimed supervisory events. -/
theorem dropped_event_cex :
    handle_routed_packet c5_drone c5_packet =
      some ({ sample_drone with pdr := 1, random_generator := [] },
            [Output.send 5 c5_nack]) ∧
    (∀ e, Output.controllerEvent e ∉ [Output.send 5 c5_nack]) := by
  refine ⟨?_, by intro e h; simp at h⟩
  simp [handle_routed_packet, verify_routing, handle_message_fragment,
    should_drop_packet, rng_next, build_nack, reverse_packet_routing_direction,
    nack_fragment_index, forward_packet, advance_packet, pdr_scaled_one,
    pure, c5_drone, c5_packet, c5_nack, sample_drone]

/-- C5 amended: for a data fragment reaching `handle_message_fragment`
with a reachable next hop, on a drop decision the drone sends only the
`Dropped` NACK (no `PacketDropped` event, no forward of the fragment);
on a no-drop decision it forwards the fragment to the next hop (no
`PacketSent` event): in neither case is any controller event emitted. -/
theorem fragment_dispatch_no_events
    (d : Dr_One) (p : Packet) (f : Fragment) (next_hop_id : NodeId)
    (hp : p.pack_type = PacketType.MsgFragment f)
    (h2 : 2 ≤ p.routing_header.hop_index)
    (hnext : p.routing_header.hops[p.routing_header.hop_index]? = some next_hop_id)
    (hreach : next_hop_id ∈ d.packet_send) :
    ∃ outs, handle_message_fragment d p =
        some ({ d with random_generator := d.random_generator.tail }, outs) ∧
      (∀ e, Output.controllerEvent e ∉ outs) ∧
      ((((d.random_generator.headD 0 : Nat) : Int) < pdr_scaled d.pdr ∧
          (∃ nack,
            build_nack { d with random_generator := d.random_generator.tail } p
                NackType.Dropped = some nack ∧
            nack.pack_type = PacketType.Nack
              { fragment_index := f.fragment_index, nack_type := NackType.Dropped } ∧
            forward_packet { d with random_generator := d.random_generator.tail } nack
                = some outs ∧
            (∀ dest, Output.send dest p ∉ outs))) ∨
        (¬ (((d.random_generator.headD 0 : Nat) : Int) < pdr_scaled d.pdr) ∧
          outs = [Output.send next_hop_id p])) := by
  have hk : p.routing_header.hop_index ≤ p.routing_header.hops.length :=
    le_of_lt (List.getElem?_eq_some_iff.mp hnext).choose
  by_cases hdrop : ((d.random_generator.headD 0 : Nat) : Int) < pdr_scaled d.pdr
  · have hdrop' : ((d.random_generator.head?.getD 0 : Nat) : Int) < pdr_scaled d.pdr := by
      simpa using hdrop
    have hs : should_drop_packet d =
        (true, { d with random_generator := d.random_generator.tail }) := by
      simp [should_drop_packet, rng_next, hdrop']
    have hb : build_nack { d with random_generator := d.random_generator.tail } p
        NackType.Dropped =
        some { pack_type := PacketType.Nack
                 { fragment_index := f.fragment_index, nack_type := NackType.Dropped },
               routing_header :=
                 { hop_index := 1,
                   hops := (p.routing_header.hops.take
                     p.routing_header.hop_index).reverse },
               session_id := p.session_id } := by
      unfold build_nack reverse_packet_routing_direction
      simp [hk, hp, nack_fragment_index]
    have hlt : 1 <
        ((p.routing_header.hops.take p.routing_header.hop_index).reverse).length := by
      simp
      omega
    obtain ⟨prev, hprev⟩ :
        ∃ x, ((p.routing_header.hops.take
          p.routing_header.hop_index).reverse)[1]? = some x :=
      ⟨_, List.getElem?_eq_getElem hlt⟩
    have hf := forward_packet_total { d with random_generator := d.random_generator.tail }
      { pack_type := PacketType.Nack
          { fragment_index := f.fragment_index, nack_type := NackType.Dropped },
        routing_header :=
          { hop_index := 1,
            hops := (p.routing_header.hops.take p.routing_header.hop_index).reverse },
        session_id := p.session_id } prev hprev
    refine ⟨_, ?_, forward_packet_no_event _ _ _ hf,
      Or.inl ⟨hdrop, _, hb, rfl, hf, ?_⟩⟩
    · unfold handle_message_fragment
      rw [hs]
      simp [hb, hf, pure]
    · intro dest hmem
      have := forward_packet_send_eq _ _ _ hf dest p hmem
      rw [this] at hp
      simp at hp
  · have hdrop' : pdr_scaled d.pdr ≤ ((d.random_generator.head?.getD 0 : Nat) : Int) := by
      simpa [not_lt] using hdrop
    have hs : should_drop_packet d =
        (false, { d with random_generator := d.random_generator.tail }) := by
      simp [should_drop_packet, rng_next, hdrop']
    have hf := forward_packet_total { d with random_generator := d.random_generator.tail }
      p next_hop_id hnext
    rw [if_pos hreach] at hf
    refine ⟨_, ?_, forward_packet_no_event _ _ _ hf, Or.inr ⟨hdrop, rfl⟩⟩
    unfold handle_message_fragment
    rw [hs]
    simp [hf, pure]

/-- Witness for C5 (amended) at `c5_drone` and `c5_packet` advanced past
this drone. -/
theorem fragment_dispatch_no_events_witness :
    ∃ outs, handle_message_fragment c5_drone (advance_packet c5_packet) =
        some ({ c5_drone with random_generator := c5_drone.random_generator.tail }, outs) ∧
      (∀ e, Output.controllerEvent e ∉ outs) ∧
      ((((c5_drone.random_generator.headD 0 : Nat) : Int) < pdr_scaled c5_drone.pdr ∧
          (∃ nack,
            build_nack { c5_drone with random_generator := c5_drone.random_generator.tail }
                (advance_packet c5_packet) NackType.Dropped = some nack ∧
            nack.pack_type = PacketType.Nack
              { fragment_index := 1, nack_type := NackType.Dropped } ∧
            forward_packet
                { c5_drone with random_generator := c5_drone.random_generator.tail } nack
                = some outs ∧
            (∀ dest, Output.send dest (advance_packet c5_packet) ∉ outs))) ∨
        (¬ (((c5_drone.random_generator.headD 0 : Nat) : Int) < pdr_scaled c5_drone.pdr) ∧
          outs = [Output.send 9 (advance_packet c5_packet)])) :=
  fragment_dispatch_no_events c5_drone (advance_packet c5_packet)
    { fragment_index := 1, total_n_fragments := 1, length := 128, data := [] }
    9 rfl (by decide) rfl (by decide)

/-- C2: Flood-request decision rule.  With the link table duplicate-free
(a `HashMap` invariant) and a non-empty incoming path trace, a
`FloodRequest` is turned into a `FloodResponse` exactly when the flood id
was already seen or the drone has exactly one neighbour: in that case the
seen set is unchanged and the only packet that may be sent is the flood
response over the reversed updated path trace; otherwise the flood id is
recorded and the request — path trace extended with `(self, Drone)`,
original routing header and session id kept — is sent to every neighbour
except the one it arrived from. -/
theorem flood_request_decision
    (d : Dr_One) (p : Packet) (fr : FloodRequest)
    (hp : p.pack_type = PacketType.FloodRequest fr)
    (hnd : d.packet_send.Nodup)
    (hpt : fr.path_trace ≠ []) :
    ((fr.flood_id ∈ d.seen_flood_ids ∨ d.packet_send.length = 1) →
      ∃ outs, handle_flood_request d p =
          some ({ d with random_generator := d.random_generator.tail }, outs) ∧
        forward_packet { d with random_generator := d.random_generator.tail }
          { pack_type := PacketType.FloodResponse
              { flood_id := fr.flood_id,
                path_trace := (flood_with_self d fr).path_trace },
            routing_header :=
              { hop_index := 1,
                hops := ((flood_with_self d fr).path_trace.map Prod.fst).reverse },
            session_id := d.random_generator.headD 0 } = some outs ∧
        (∀ dest q, Output.send dest q ∈ outs →
          q.pack_type = PacketType.FloodResponse
            { flood_id := fr.flood_id,
              path_trace := (flood_with_self d fr).path_trace })) ∧
    (¬ (fr.flood_id ∈ d.seen_flood_ids ∨ d.packet_send.length = 1) →
      handle_flood_request d p =
        some ({ d with seen_flood_ids := d.seen_flood_ids ++ [fr.flood_id] },
          (d.packet_send.filter (fun nid => nid ≠ flood_sender_id fr)).map
            (fun nid => Output.send nid
              { pack_type := PacketType.FloodRequest (flood_with_self d fr),
                routing_header := p.routing_header,
                session_id := p.session_id }))) := by
  constructor
  · intro hcond
    have hresp : should_respond_to_flood d (flood_with_self d fr) = true := by
      rcases hcond with hmem | hone
      · simp [should_respond_to_flood, flood_with_self, hmem]
      · simp [should_respond_to_flood, flood_with_self, hone]
    have hbuild : build_flood_response d p (flood_with_self d fr).path_trace =
        some ({ d with random_generator := d.random_generator.tail },
          { pack_type := PacketType.FloodResponse
              { flood_id := fr.flood_id,
                path_trace := (flood_with_self d fr).path_trace },
            routing_header :=
              { hop_index := 1,
                hops := ((flood_with_self d fr).path_trace.map Prod.fst).reverse },
            session_id := d.random_generator.headD 0 }) := by
      unfold build_flood_response
      rw [hp]
      rfl
    have hlt : 1 <
        (((flood_with_self d fr).path_trace.map Prod.fst).reverse).length := by
      simp [flood_with_self]
      exact List.length_pos.mpr hpt
    obtain ⟨prev, hprev⟩ :
        ∃ x, (((flood_with_self d fr).path_trace.map Prod.fst).reverse)[1]? = some x :=
      ⟨_, List.getElem?_eq_getElem hlt⟩
    have hf := forward_packet_total { d with random_generator := d.random_generator.tail }
      { pack_type := PacketType.FloodResponse
          { flood_id := fr.flood_id,
            path_trace := (flood_with_self d fr).path_trace },
        routing_header :=
          { hop_index := 1,
            hops := ((flood_with_self d fr).path_trace.map Prod.fst).reverse },
        session_id := d.random_generator.headD 0 } prev hprev
    refine ⟨_, ?_, hf, ?_⟩
    · unfold handle_flood_request
      rw [hp]
      simp only [hresp, if_true]
      rw [hbuild]
      simp only [Option.bind_eq_bind, Option.some_bind]
      rw [hf]
      simp [pure]
    · intro dest q hq
      rw [forward_packet_send_eq _ _ _ hf dest q hq]
  · intro hcond
    push_neg at hcond
    obtain ⟨hmem, hone⟩ := hcond
    have hresp : should_respond_to_flood d (flood_with_self d fr) = false := by
      simp [should_respond_to_flood, flood_with_self, hmem, hone]
    unfold handle_flood_request
    rw [hp]
    simp [hresp]
    have hins : seen_insert d.seen_flood_ids (flood_with_self d fr).flood_id =
        d.seen_flood_ids ++ [fr.flood_id] := by
      simp [seen_insert, flood_with_self, hmem]
    rw [hins]
    refine ⟨rfl, ?_⟩
    simp [broadcast_packet]

/-- Single-neighbour drone for the C2 witness, with one pending random
draw for the response's session id. -/
def c2_drone : Dr_One :=
  { id := 7, packet_recv := [], packet_send := [5], pdr := 0,
    seen_flood_ids := [], random_generator := [99], should_exit := false }

/-- Concrete flood request for the C2 witness. -/
def c2_fr : FloodRequest :=
  { flood_id := 42, initiator_id := 5, path_trace := [(5, NodeType.Client)] }

/-- Concrete flood request packet for the C2 witness. -/
def c2_packet : Packet :=
  { pack_type := PacketType.FloodRequest c2_fr,
    routing_header := { hop_index := 0, hops := [] },
    session_id := 11 }

/-- Witness for C2 at a concrete single-neighbour drone. -/
theorem flood_request_decision_witness :
    ((c2_fr.flood_id ∈ c2_drone.seen_flood_ids ∨ c2_drone.packet_send.length = 1) →
      ∃ outs, handle_flood_request c2_drone c2_packet =
          some ({ c2_drone with random_generator := c2_drone.random_generator.tail }, outs) ∧
        forward_packet { c2_drone with random_generator := c2_drone.random_generator.tail }
          { pack_type := PacketType.FloodResponse
              { flood_id := c2_fr.flood_id,
                path_trace := (flood_with_self c2_drone c2_fr).path_trace },
            routing_header :=
              { hop_index := 1,
                hops := ((flood_with_self c2_drone c2_fr).path_trace.map Prod.fst).reverse },
            session_id := c2_drone.random_generator.headD 0 } = some outs ∧
        (∀ dest q, Output.send dest q ∈ outs →
          q.pack_type = PacketType.FloodResponse
            { flood_id := c2_fr.flood_id,
              path_trace := (flood_with_self c2_drone c2_fr).path_trace })) ∧
    (¬ (c2_fr.flood_id ∈ c2_drone.seen_flood_ids ∨ c2_drone.packet_send.length = 1) →
      handle_flood_request c2_drone c2_packet =
        some ({ c2_drone with seen_flood_ids := c2_drone.seen_flood_ids ++ [c2_fr.flood_id] },
          (c2_drone.packet_send.filter (fun nid => nid ≠ flood_sender_id c2_fr)).map
            (fun nid => Output.send nid
              { pack_type := PacketType.FloodRequest (flood_with_self c2_drone c2_fr),
                routing_header := c2_packet.routing_header,
                session_id := c2_packet.session_id }))) :=
  flood_request_decision c2_drone c2_packet c2_fr rfl (by decide) (by decide)

theorem state_of_nack_chain {st d' : Dr_One} {m₁ : Option Packet} {d₀ : Dr_One}
    {outs : List Output}
    (h : (do
        let nack ← m₁
        let o ← forward_packet d₀ nack
        pure (st, o)) = some (d', outs)) :
    d' = st := by
  cases m₁ with
  | none => simp at h
  | some nack =>
      cases hf : forward_packet d₀ nack with
      | none => simp [hf] at h
      | some o =>
          simp [hf, pure] at h
          exact h.1.symm

theorem state_of_forward_chain {st d' : Dr_One} {d₀ : Dr_One} {q : Packet}
    {outs : List Output}
    (h : (do
        let o ← forward_packet d₀ q
        pure (st, o)) = some (d', outs)) :
    d' = st := by
  cases hf : forward_packet d₀ q with
  | none => rw [hf] at h; simp at h
  | some o => rw [hf] at h; simp [pure] at h; exact h.1.symm

theorem build_flood_response_state {d : Dr_One} {p : Packet}
    {pt : List (NodeId × NodeType)} {d' : Dr_One} {q : Packet}
    (h : build_flood_response d p pt = some (d', q)) :
    d' = { d with random_generator := d.random_generator.tail } := by
  unfold build_flood_response at h
  split at h
  · simp [rng_next] at h
    exact h.1.symm
  · cases h

theorem handle_message_fragment_state {d : Dr_One} {p : Packet} {d' : Dr_One}
    {outs : List Output} (h : handle_message_fragment d p = some (d', outs)) :
    d' = { d with random_generator := d.random_generator.tail } := by
  unfold handle_message_fragment at h
  simp only [should_drop_packet, rng_next] at h
  split at h
  · exact state_of_nack_chain h
  · exact state_of_forward_chain h

theorem handle_routed_packet_state {d : Dr_One} {p : Packet} {d' : Dr_One}
    {outs : List Output} (h : handle_routed_packet d p = some (d', outs)) :
    d' = d ∨ d' = { d with random_generator := d.random_generator.tail } := by
  unfold handle_routed_packet at h
  cases hv : verify_routing d p with
  | none => rw [hv] at h; simp at h
  | some x =>
      obtain ⟨ok, vouts⟩ := x
      rw [hv] at h
      simp only [Option.bind_eq_bind, Option.some_bind] at h
      split at h
      · simp [pure] at h
        exact Or.inl h.1.symm
      · split at h
        · exact Or.inl (state_of_nack_chain h)
        · cases hn : (advance_packet p).routing_header.hops[(advance_packet p).routing_header.hop_index]? with
          | none => rw [hn] at h; simp at h
          | some next =>
              rw [hn] at h
              simp only [Option.some_bind] at h
              split at h
              · exact Or.inl (state_of_nack_chain h)
              · split at h
                · exact Or.inr (handle_message_fragment_state h)
                · exact Or.inl (state_of_forward_chain h)

theorem handle_flood_request_state {d : Dr_One} {p : Packet} {d' : Dr_One}
    {outs : List Output} (h : handle_flood_request d p = some (d', outs)) :
    d'.packet_recv = d.packet_recv ∧ d'.should_exit = d.should_exit := by
  unfold handle_flood_request at h
  split at h
  · rename_i fr heq
    dsimp only at h
    split at h
    · cases hb : build_flood_response d p (flood_with_self d fr).path_trace with
      | none => rw [hb] at h; simp at h
      | some x =>
          obtain ⟨d₁, resp⟩ := x
          rw [hb] at h
          simp only [Option.bind_eq_bind, Option.some_bind] at h
          have hst : d' = d₁ := state_of_forward_chain h
          rw [hst, build_flood_response_state hb]
          exact ⟨rfl, rfl⟩
    · simp [pure] at h
      rw [← h.1]
      exact ⟨rfl, rfl⟩
  · simp [pure] at h
    rw [← h.1]
    exact ⟨rfl, rfl⟩

theorem handle_packet_state {d : Dr_One} {p : Packet} {d' : Dr_One}
    {outs : List Output} (h : handle_packet d p = some (d', outs)) :
    d'.packet_recv = d.packet_recv ∧ d'.should_exit = d.should_exit := by
  unfold handle_packet at h
  split at h
  · exact handle_flood_request_state h
  · rcases handle_routed_packet_state h with hst | hst <;> rw [hst] <;> exact ⟨rfl, rfl⟩

theorem drain_packets_processed
    (ps : List Packet) (d d' : Dr_One) (outs : List Output)
    (h : drain_packets d ps = some (d', outs)) :
    ProcessedSeq d ps d' outs ∧ d'.packet_recv = d.packet_recv ∧
      d'.should_exit = d.should_exit := by
  induction ps generalizing d d' outs with
  | nil =>
      unfold drain_packets at h
      simp at h
      obtain ⟨h1, h2⟩ := h
      subst h1
      subst h2
      exact ⟨⟨rfl, rfl⟩, rfl, rfl⟩
  | cons p rest ih =>
      unfold drain_packets at h
      cases hh : handle_packet d p with
      | none => rw [hh] at h; simp at h
      | some x =>
          obtain ⟨d₁, o₁⟩ := x
          rw [hh] at h
          simp only [Option.bind_eq_bind, Option.some_bind] at h
          cases hr : drain_packets d₁ rest with
          | none => rw [hr] at h; simp at h
          | some y =>
              obtain ⟨d₂, o₂⟩ := y
              rw [hr] at h
              simp [pure] at h
              obtain ⟨hd, ho⟩ := h
              obtain ⟨hps, hq, he⟩ := ih d₁ d₂ o₂ hr
              obtain ⟨hq₁, he₁⟩ := handle_packet_state hh
              subst hd
              refine ⟨⟨d₁, o₁, o₂, hh, hps, ho.symm⟩, ?_, ?_⟩
              · rw [hq, hq₁]
              · rw [he, he₁]

/-- C8: Crash drain completeness.  Whenever the `Crash` command handler
returns, it has dispatched every packet that was queued on the inbound
channel, in order, through the ordinary `handle_packet` routing/flood
dispatch, and only then set the exit flag: the final state has the exit
flag set and an empty queue, and the outputs are exactly the
concatenation of the outputs of each queued packet's dispatch (between
the crash log lines); no queued packet is lost. -/
theorem crash_drain_complete (d d' : Dr_One) (outs : List Output)
    (h : crash d = some (d', outs)) :
    d'.should_exit = true ∧ d'.packet_recv = [] ∧
    ∃ dmid mouts,
      ProcessedSeq { d with packet_recv := [] } d.packet_recv dmid mouts ∧
      d' = { dmid with should_exit := true } ∧
      outs = [Output.logLine, Output.logLine] ++ mouts ++ [Output.logLine] := by
  unfold crash at h
  cases hdr : drain_packets { d with packet_recv := [] } d.packet_recv with
  | none => rw [hdr] at h; simp at h
  | some x =>
      obtain ⟨dmid, mouts⟩ := x
      rw [hdr] at h
      simp [pure] at h
      obtain ⟨hd, ho⟩ := h
      obtain ⟨hps, hq, _⟩ := drain_packets_processed _ _ _ _ hdr
      refine ⟨by rw [← hd], ?_, dmid, mouts, hps, hd.symm, ho.symm⟩
      rw [← hd]
      simpa using hq

/-- Drone for the C8 witness: one Ack packet queued for a reachable next
hop. -/
def c8_drone : Dr_One :=
  { sample_drone with packet_recv :=
      [{ pack_type := PacketType.Ack { fragment_index := 0 },
         routing_header := { hop_index := 1, hops := [5, 7, 9] },
         session_id := 4 }] }

/-- Witness for C8 at the concrete drone `c8_drone`. -/
theorem crash_drain_complete_witness :
    ({ sample_drone with should_exit := true } : Dr_One).should_exit = true ∧
    ({ sample_drone with should_exit := true } : Dr_One).packet_recv = [] ∧
    ∃ dmid mouts,
      ProcessedSeq { c8_drone with packet_recv := [] } c8_drone.packet_recv dmid mouts ∧
      ({ sample_drone with should_exit := true } : Dr_One) =
        { dmid with should_exit := true } ∧
      [Output.logLine, Output.logLine,
        Output.send 9
          { pack_type := PacketType.Ack { fragment_index := 0 },
            routing_header := { hop_index := 2, hops := [5, 7, 9] },
            session_id := 4 },
        Output.logLine] =
        [Output.logLine, Output.logLine] ++ mouts ++ [Output.logLine] :=
  crash_drain_complete c8_drone { sample_drone with should_exit := true }
    [Output.logLine, Output.logLine,
      Output.send 9
        { pack_type := PacketType.Ack { fragment_index := 0 },
          routing_header := { hop_index := 2, hops := [5, 7, 9] },
          session_id := 4 },
      Output.logLine]
    (by rfl)

theorem handle_message_fragment_no_drop
    (d : Dr_One) (p : Packet) (next_hop_id : NodeId)
    (hnext : p.routing_header.hops[p.routing_header.hop_index]? = some next_hop_id)
    (hreach : next_hop_id ∈ d.packet_send)
    (hnodrop : ¬ (((d.random_generator.headD 0 : Nat) : Int) < pdr_scaled d.pdr)) :
    handle_message_fragment d p =
      some ({ d with random_generator := d.random_generator.tail },
            [Output.send next_hop_id p]) := by
  have hdrop' : pdr_scaled d.pdr ≤ ((d.random_generator.head?.getD 0 : Nat) : Int) := by
    simpa [not_lt] using hnodrop
  have hs : should_drop_packet d =
      (false, { d with random_generator := d.random_generator.tail }) := by
    simp [should_drop_packet, rng_next, hdrop']
  have hf := forward_packet_total { d with random_generator := d.random_generator.tail }
    p next_hop_id hnext
  rw [if_pos hreach] at hf
  unfold handle_message_fragment
  rw [hs]
  simp [hf, pure]

theorem crash_single_fragment_forward
    (d : Dr_One) (p : Packet) (f : Fragment) (next_hop_id : NodeId)
    (hq : d.packet_recv = [p])
    (hp : p.pack_type = PacketType.MsgFragment f)
    (hrec : p.routing_header.hops[p.routing_header.hop_index]? = some d.id)
    (hnext : p.routing_header.hops[p.routing_header.hop_index + 1]? = some next_hop_id)
    (hreach : next_hop_id ∈ d.packet_send)
    (hnodrop : ¬ (((d.random_generator.headD 0 : Nat) : Int) < pdr_scaled d.pdr)) :
    crash d = some
      ({ d with
          packet_recv := [], random_generator := d.random_generator.tail,
          should_exit := true },
       [Output.logLine, Output.logLine,
        Output.send next_hop_id (advance_packet p), Output.logLine]) := by
  have hterm : p.routing_header.hop_index + 1 < p.routing_header.hops.length :=
    (List.getElem?_eq_some_iff.mp hnext).choose
  have hhm := handle_message_fragment_no_drop { d with packet_recv := [] }
    (advance_packet p) next_hop_id hnext hreach hnodrop
  have hp' : (advance_packet p).pack_type = PacketType.MsgFragment f := hp
  have hrp : handle_routed_packet { d with packet_recv := [] } p =
      some ({ d with
                packet_recv := [], random_generator := d.random_generator.tail },
            [Output.send next_hop_id (advance_packet p)]) := by
    unfold handle_routed_packet
    rw [verify_routing_ok { d with packet_recv := [] } p hrec]
    simp only [Option.bind_eq_bind, Option.some_bind, Bool.not_true, Bool.false_eq_true,
      if_false]
    rw [if_neg (show ¬ (advance_packet p).routing_header.hop_index =
        (advance_packet p).routing_header.hops.length from by
          simp [advance_packet]
          omega)]
    rw [show (advance_packet p).routing_header.hops[(advance_packet p).routing_header.hop_index]? =
        some next_hop_id from hnext]
    simp only [Option.some_bind]
    rw [if_neg (show ¬ (!({ d with packet_recv := [] } : Dr_One).packet_send.contains
        next_hop_id) = true from by simp [hreach])]
    rw [hp']
    exact hhm
  have hhp : handle_packet { d with packet_recv := [] } p =
      handle_routed_packet { d with packet_recv := [] } p := by
    unfold handle_packet
    rw [hp]
  have hdrain : drain_packets { d with packet_recv := [] } d.packet_recv =
      some ({ d with
                packet_recv := [], random_generator := d.random_generator.tail },
            [Output.send next_hop_id (advance_packet p)]) := by
    rw [hq]
    unfold drain_packets
    rw [hhp, hrp]
    simp only [Option.bind_eq_bind, Option.some_bind]
    unfold drain_packets
    simp [pure]
  unfold crash
  rw [hdrain]
  simp [pure]

/-- C9 amended: the code has no crashing-mode rejection.  During the
crash drain, a queued data fragment with a reachable next hop and a
no-drop draw is forwarded unchanged (hop index advanced) by the ordinary
dispatch; every packet sent during that drain is the fragment itself —
no `ErrorInRouting(self_id)` NACK is produced. -/
theorem crash_drain_forwards_fragments
    (d : Dr_One) (p : Packet) (f : Fragment) (next_hop_id : NodeId)
    (hq : d.packet_recv = [p])
    (hp : p.pack_type = PacketType.MsgFragment f)
    (hrec : p.routing_header.hops[p.routing_header.hop_index]? = some d.id)
    (hnext : p.routing_header.hops[p.routing_header.hop_index + 1]? = some next_hop_id)
    (hreach : next_hop_id ∈ d.packet_send)
    (hnodrop : ¬ (((d.random_generator.headD 0 : Nat) : Int) < pdr_scaled d.pdr)) :
    crash d = some
      ({ d with
          packet_recv := [], random_generator := d.random_generator.tail,
          should_exit := true },
       [Output.logLine, Output.logLine,
        Output.send next_hop_id (advance_packet p), Output.logLine]) ∧
    (advance_packet p).pack_type = PacketType.MsgFragment f ∧
    (∀ dest q, Output.send dest q ∈
        [Output.logLine, Output.logLine,
         Output.send next_hop_id (advance_packet p), Output.logLine] →
      q = advance_packet p) := by
  refine ⟨crash_single_fragment_forward d p f next_hop_id hq hp hrec hnext hreach hnodrop,
    hp, ?_⟩
  intro dest q hmem
  simp at hmem
  exact hmem.2

/-- Concrete data fragment queued behind a Crash command, for the C9
counterexample. -/
def c9_packet : Packet :=
  { pack_type := PacketType.MsgFragment
      { fragment_index := 1, total_n_fragments := 1, length := 128, data := [] },
    routing_header := { hop_index := 1, hops := [5, 7, 9] },
    session_id := 6 }

/-- Drone handling a Crash with `c9_packet` queued: next hop 9 reachable,
drop rate 0 with pending draw 0 (no drop). -/
def c9_drone : Dr_One :=
  { id := 7, packet_recv := [c9_packet], packet_send := [5, 9], pdr := 0,
    seen_flood_ids := [], random_generator := [0], should_exit := false }

/-- C9 counterexample: while draining for a crash, the fragment with
reachable next hop 9 is forwarded as a fragment — it is not answered
with an `ErrorInRouting(7)` NACK, refuting the claimed crashing-mode
rejection. -/
theorem crashing_mode_rejection_cex :
    crash c9_drone = some
      ({ c9_drone with packet_recv := [], random_generator := [], should_exit := true },
       [Output.logLine, Output.logLine,
        Output.send 9 (advance_packet c9_packet), Output.logLine]) ∧
    (advance_packet c9_packet).pack_type = PacketType.MsgFragment
      { fragment_index := 1, total_n_fragments := 1, length := 128, data := [] } ∧
    (∀ dest q, Output.send dest q ∈
        [Output.logLine, Output.logLine,
         Output.send 9 (advance_packet c9_packet), Output.logLine] →
      q.pack_type ≠ PacketType.Nack
        { fragment_index := 1, nack_type := NackType.ErrorInRouting 7 }) := by
  refine ⟨crash_single_fragment_forward c9_drone c9_packet
      { fragment_index := 1, total_n_fragments := 1, length := 128, data := [] }
      9 rfl rfl rfl rfl (by decide)
      (by simp [c9_drone, pdr_scaled_zero]), rfl, ?_⟩
  intro dest q hmem
  simp at hmem
  rw [hmem.2]
  simp [advance_packet, c9_packet]

/-- Witness for C9 (amended) at the concrete drone `c9_drone`. -/
theorem crash_drain_forwards_fragments_witness :
    crash c9_drone = some
      ({ c9_drone with packet_recv := [], random_generator := [], should_exit := true },
       [Output.logLine, Output.logLine,
        Output.send 9 (advance_packet c9_packet), Output.logLine]) ∧
    (advance_packet c9_packet).pack_type = PacketType.MsgFragment
      { fragment_index := 1, total_n_fragments := 1, length := 128, data := [] } ∧
    (∀ dest q, Output.send dest q ∈
        [Output.logLine, Output.logLine,
         Output.send 9 (advance_packet c9_packet), Output.logLine] →
      q = advance_packet c9_packet) :=
  crash_drain_forwards_fragments c9_drone c9_packet
    { fragment_index := 1, total_n_fragments := 1, length := 128, data := [] }
    9 rfl rfl rfl rfl (by decide) (by simp [c9_drone, pdr_scaled_zero])

end DrOnes
